import Mathlib

/-!
Verification of the CSV-to-database reconciliation layer, the CRUD wrappers
and the assistant facade of the cybersecurity-dashboard repository.

The embedding follows the source files:
  * `DB/load_data.py`  — batch reconciler (`load_csv_to_table`, `PK_COL`,
    `_get_existing_keys`, the pandas pipeline `dropna`/`drop_duplicates`);
  * `DB/crud.py`       — single-row CRUD (`insert_user`, `create_incident`,
    `update_incident_status`, `delete_incident`);
  * `DB/schema.py`     — the sqlite constraints that decide when an
    `IntegrityError` is raised;
  * `ai_helper.py`     — `_offline_response`, `_openrouter_response`,
    `ask_cyber_assistant`.

A pandas DataFrame row is modelled by the value of its natural-key column
(`pk`, an `Option String`: `none` models a missing/NaN cell) together with an
opaque payload standing for the remaining columns.  A sqlite table is a list
of rows in insertion order (`to_sql(..., if_exists="append")` appends).
Cell values are modelled as strings; Python's `str()` applied to a value that
is already a string is the identity, which `py_str` records.
-/

namespace Dashboard

/-- One row of a batch file or of a stored table, seen through its
natural-key column: `pk` is the cell of the configured key column
(`none` = missing/NaN), `payload` stands for all remaining columns. -/
structure Row where
  pk : Option String
  payload : String
deriving DecidableEq, Repr

/-- `PK_COL` from `load_data.py`: table name → primary-key-like column. -/
def PK_COL : List (String × String) :=
  [("cyber_incidents", "incident_id"),
   ("datasets_metadata", "dataset_name"),
   ("it_tickets", "ticket_id")]

/-- Python `str()` on a cell that the model already types as a string:
the identity.  (`load_csv_to_table` normalizes both sides of the key
comparison with `astype(str)` / `str(x)`.) -/
def py_str (s : String) : String := s

/-- `_get_existing_keys`: the key column of the stored table, with SQL NULLs
filtered out (`if row[0] is not None`). -/
def get_existing_keys (table : List Row) : List String :=
  table.filterMap (fun r => r.pk)

/-- `df.dropna(subset=[pk])`: drop rows whose key cell is missing. -/
def dropna (rows : List Row) : List Row :=
  rows.filter (fun r => r.pk.isSome)

/-- Worker for `drop_duplicates`: `seen` is the set of key values already
kept; a row whose key was seen is dropped, otherwise it is kept and its key
recorded.  (pandas also treats two NaN keys as duplicates of each other,
which the `Option` equality reproduces.) -/
def drop_duplicates_aux : List (Option String) → List Row → List Row
  | _, [] => []
  | seen, r :: rs =>
    if r.pk ∈ seen then drop_duplicates_aux seen rs
    else r :: drop_duplicates_aux (r.pk :: seen) rs

/-- `df.drop_duplicates(subset=[pk], keep="first")`. -/
def drop_duplicates (rows : List Row) : List Row :=
  drop_duplicates_aux [] rows

/-- The mask complement of `load_csv_to_table`: row `r` is *stale* when its
normalized key is among the normalized existing keys
(`df[pk].astype(str).isin({str(x) for x in existing})`). -/
def key_in_existing (existing : List String) (r : Row) : Bool :=
  match r.pk with
  | some k => (existing.map py_str).contains (py_str k)
  | none => false

/-- Result of one `load_csv_to_table` call: the table after the call and the
returned pair `(inserted_count, skipped_count)`. -/
structure LoadResult where
  table : List Row
  inserted : Nat
  skipped : Nat
deriving DecidableEq, Repr

/-- `load_csv_to_table(db, csv_path, table_name)` from `load_data.py`.
`csv = none` models a missing file (`csv_path.exists()` false); otherwise
`csv = some df` holds the parsed rows in file order.  For a table absent
from `PK_COL` the whole file is handed to `to_sql(..., if_exists="append")`
(this branch abstracts from the target table's sqlite constraints;
`load_csv_to_users` below refines it for the constraint-bearing `users`
table); otherwise the pipeline is: drop null-key rows, drop intra-batch
duplicate keys keeping the first, then skip rows whose key already exists
in the stored table, and append the remainder in order. -/
def load_csv_to_table (table : List Row) (table_name : String)
    (csv : Option (List Row)) : LoadResult :=
  match csv with
  | none => ⟨table, 0, 0⟩
  | some df =>
    match List.lookup table_name PK_COL with
    | none => ⟨table ++ df, df.length, 0⟩
    | some _pk =>
      let df1 := dropna df
      let df2 := drop_duplicates df1
      let existing := get_existing_keys table
      let skipped := (df2.filter (fun r => key_in_existing existing r)).length
      let df_new := df2.filter (fun r => !(key_in_existing existing r))
      ⟨table ++ df_new, df_new.length, skipped⟩

/-- Membership in the deduplicated list implies membership in the input. -/
theorem mem_of_mem_drop_duplicates_aux {r : Row} :
    ∀ (seen : List (Option String)) (l : List Row),
      r ∈ drop_duplicates_aux seen l → r ∈ l := by
  intro seen l
  induction l generalizing seen with
  | nil => simp [drop_duplicates_aux]
  | cons a t ih =>
    intro h
    by_cases ha : a.pk ∈ seen
    · simp only [drop_duplicates_aux, if_pos ha] at h
      exact List.mem_cons_of_mem a (ih seen h)
    · simp only [drop_duplicates_aux, if_neg ha, List.mem_cons] at h
      rcases h with h | h
      · exact h ▸ List.mem_cons_self a t
      · exact List.mem_cons_of_mem a (ih _ h)

/-- Every row surviving the null-key filter has a key. -/
theorem pk_isSome_of_mem_dropna {r : Row} {l : List Row}
    (h : r ∈ dropna l) : r.pk.isSome := by
  have := List.of_mem_filter h
  simpa using this

/-- The deduplicated list is no longer than the input. -/
theorem length_drop_duplicates_aux_le :
    ∀ (seen : List (Option String)) (l : List Row),
      (drop_duplicates_aux seen l).length ≤ l.length := by
  intro seen l
  induction l generalizing seen with
  | nil => simp [drop_duplicates_aux]
  | cons a t ih =>
    by_cases ha : a.pk ∈ seen
    · simp only [drop_duplicates_aux, if_pos ha]
      exact Nat.le_succ_of_le (ih seen)
    · simp only [drop_duplicates_aux, if_neg ha, List.length_cons]
      exact Nat.succ_le_succ (ih _)

/-- Filter characterization of the dedup worker: among rows with a given key
value, the worker keeps nothing if that key was already seen, and otherwise
exactly the first such row of the input. -/
theorem filter_drop_duplicates_aux (p : Option String) :
    ∀ (seen : List (Option String)) (l : List Row),
      (drop_duplicates_aux seen l).filter (fun r => r.pk == p)
        = if p ∈ seen then [] else (l.filter (fun r => r.pk == p)).take 1 := by
  intro seen l
  induction l generalizing seen with
  | nil => simp [drop_duplicates_aux]
  | cons a t ih =>
    by_cases ha : a.pk ∈ seen
    · rw [drop_duplicates_aux, if_pos ha, ih seen]
      by_cases hp : p ∈ seen
      · simp [hp]
      · have hne : (a.pk == p) = false := by
          simp only [beq_eq_false_iff_ne, ne_eq]
          intro h; exact hp (h ▸ ha)
        simp [hp, List.filter_cons, hne]
    · rw [drop_duplicates_aux, if_neg ha]
      by_cases hap : a.pk = p
      · subst hap
        simp [List.filter_cons, ih (a.pk :: seen), ha]
      · have hne : (a.pk == p) = false := by simpa using hap
        have hpa : ¬ p = a.pk := fun h => hap h.symm
        rw [List.filter_cons, List.filter_cons, hne, ih (a.pk :: seen)]
        by_cases hp : p ∈ seen
        · simp [hp, List.mem_cons]
        · simp [hp, List.mem_cons, hpa]

/-- The stale-row test succeeds exactly when the row's key is an existing
key (`py_str` being the identity). -/
theorem key_in_existing_iff (existing : List String) (r : Row) (k : String)
    (hk : r.pk = some k) :
    key_in_existing existing r = true ↔ k ∈ existing := by
  simp [key_in_existing, hk, py_str, List.map_id]

/-- Every surviving row of the cleaned batch carries a key that occurs in
the original batch file. -/
theorem clean_row_key (df : List Row) :
    ∀ r ∈ drop_duplicates (dropna df),
      ∃ k, r.pk = some k ∧ k ∈ df.filterMap Row.pk := by
  intro r hr
  have hr1 : r ∈ dropna df := mem_of_mem_drop_duplicates_aux [] _ hr
  have hs : r.pk.isSome := pk_isSome_of_mem_dropna hr1
  have hrdf : r ∈ df := List.mem_of_mem_filter hr1
  obtain ⟨k, hk⟩ := Option.isSome_iff_exists.mp hs
  exact ⟨k, hk, List.mem_filterMap.mpr ⟨r, hrdf, hk⟩⟩

/-- Reduction of `load_csv_to_table` on a table with a configured key when
no cleaned row's key pre-exists in the store: everything is inserted. -/
theorem load_run_fresh (table : List Row) (tname pkc : String) (df : List Row)
    (hpk : List.lookup tname PK_COL = some pkc)
    (hfresh : ∀ k ∈ df.filterMap Row.pk, k ∉ get_existing_keys table) :
    load_csv_to_table table tname (some df)
      = ⟨table ++ drop_duplicates (dropna df),
         (drop_duplicates (dropna df)).length, 0⟩ := by
  have hstale : ∀ r ∈ drop_duplicates (dropna df),
      key_in_existing (get_existing_keys table) r = false := by
    intro r hr
    obtain ⟨k, hk, hkdf⟩ := clean_row_key df r hr
    rw [Bool.eq_false_iff]
    intro hT
    exact hfresh k hkdf ((key_in_existing_iff _ r k hk).mp hT)
  have h1 : (drop_duplicates (dropna df)).filter
      (fun r => key_in_existing (get_existing_keys table) r) = [] :=
    List.filter_eq_nil_iff.mpr (by intro a ha hpa; rw [hstale a ha] at hpa; cases hpa)
  have h2 : (drop_duplicates (dropna df)).filter
      (fun r => !(key_in_existing (get_existing_keys table) r))
      = drop_duplicates (dropna df) :=
    List.filter_eq_self.mpr (by intro a ha; simp [hstale a ha])
  simp only [load_csv_to_table, hpk, h1, h2, List.length_nil]

/-- Reduction of `load_csv_to_table` when every cleaned row's key already
exists in the store: everything is skipped. -/
theorem load_run_stale (table : List Row) (tname pkc : String) (df : List Row)
    (hpk : List.lookup tname PK_COL = some pkc)
    (hold : ∀ r ∈ drop_duplicates (dropna df), ∀ k, r.pk = some k →
      k ∈ get_existing_keys table) :
    load_csv_to_table table tname (some df)
      = ⟨table, 0, (drop_duplicates (dropna df)).length⟩ := by
  have hstale : ∀ r ∈ drop_duplicates (dropna df),
      key_in_existing (get_existing_keys table) r = true := by
    intro r hr
    obtain ⟨k, hk, _⟩ := clean_row_key df r hr
    exact (key_in_existing_iff _ r k hk).mpr (hold r hr k hk)
  have h1 : (drop_duplicates (dropna df)).filter
      (fun r => key_in_existing (get_existing_keys table) r)
      = drop_duplicates (dropna df) :=
    List.filter_eq_self.mpr hstale
  have h2 : (drop_duplicates (dropna df)).filter
      (fun r => !(key_in_existing (get_existing_keys table) r)) = [] :=
    List.filter_eq_nil_iff.mpr (by intro a ha; simp [hstale a ha])
  simp only [load_csv_to_table, hpk, h1, h2, List.length_nil, List.append_nil]

/-- C1 — Batch reconciliation is idempotent: against a store containing none
of the batch's keys, the first run of `load_csv_to_table` inserts all N
valid, non-duplicate rows and skips none, and a second run of the same file
on the resulting store inserts none and skips N, where N is the number of
rows surviving the null-key filter and the intra-batch de-duplication. -/
theorem C1_load_csv_idempotent (table : List Row) (tname pkc : String)
    (df : List Row)
    (hpk : List.lookup tname PK_COL = some pkc)
    (hfresh : ∀ k ∈ df.filterMap Row.pk, k ∉ get_existing_keys table) :
    (load_csv_to_table table tname (some df)).inserted
        = (drop_duplicates (dropna df)).length ∧
    (load_csv_to_table table tname (some df)).skipped = 0 ∧
    (load_csv_to_table (load_csv_to_table table tname (some df)).table
        tname (some df)).inserted = 0 ∧
    (load_csv_to_table (load_csv_to_table table tname (some df)).table
        tname (some df)).skipped = (drop_duplicates (dropna df)).length := by
  have hrun1 := load_run_fresh table tname pkc df hpk hfresh
  have hold : ∀ r ∈ drop_duplicates (dropna df), ∀ k, r.pk = some k →
      k ∈ get_existing_keys (table ++ drop_duplicates (dropna df)) := by
    intro r hr k hk
    have : k ∈ (drop_duplicates (dropna df)).filterMap Row.pk :=
      List.mem_filterMap.mpr ⟨r, hr, hk⟩
    simp only [get_existing_keys, List.filterMap_append, List.mem_append]
    exact Or.inr this
  have hrun2 := load_run_stale (table ++ drop_duplicates (dropna df))
    tname pkc df hpk hold
  refine ⟨?_, ?_, ?_, ?_⟩
  · rw [hrun1]
  · rw [hrun1]
  · rw [hrun1]; show (load_csv_to_table (table ++ drop_duplicates (dropna df))
      tname (some df)).inserted = 0
    rw [hrun2]
  · rw [hrun1]; show (load_csv_to_table (table ++ drop_duplicates (dropna df))
      tname (some df)).skipped = (drop_duplicates (dropna df)).length
    rw [hrun2]

/-- Witness for C1 at a concrete input: empty store, batch of two distinct
keyed rows for `cyber_incidents`. -/
theorem C1_load_csv_idempotent_witness :
    (List.lookup "cyber_incidents" PK_COL = some "incident_id") ∧
    ((∀ k ∈ ([⟨some "A1", "x"⟩, ⟨some "B2", "y"⟩] : List Row).filterMap Row.pk,
        k ∉ get_existing_keys []) ∧
     ((load_csv_to_table [] "cyber_incidents"
          (some [⟨some "A1", "x"⟩, ⟨some "B2", "y"⟩])).inserted
        = (drop_duplicates (dropna [⟨some "A1", "x"⟩, ⟨some "B2", "y"⟩])).length ∧
      (load_csv_to_table [] "cyber_incidents"
          (some [⟨some "A1", "x"⟩, ⟨some "B2", "y"⟩])).skipped = 0 ∧
      (load_csv_to_table
          (load_csv_to_table [] "cyber_incidents"
            (some [⟨some "A1", "x"⟩, ⟨some "B2", "y"⟩])).table
          "cyber_incidents"
          (some [⟨some "A1", "x"⟩, ⟨some "B2", "y"⟩])).inserted = 0 ∧
      (load_csv_to_table
          (load_csv_to_table [] "cyber_incidents"
            (some [⟨some "A1", "x"⟩, ⟨some "B2", "y"⟩])).table
          "cyber_incidents"
          (some [⟨some "A1", "x"⟩, ⟨some "B2", "y"⟩])).skipped
        = (drop_duplicates (dropna [⟨some "A1", "x"⟩, ⟨some "B2", "y"⟩])).length)) :=
  ⟨by decide,
   by decide,
   C1_load_csv_idempotent [] "cyber_incidents" "incident_id"
     [⟨some "A1", "x"⟩, ⟨some "B2", "y"⟩] (by decide) (by decide)⟩

/-- C2 — Intra-batch de-duplication keeps exactly the first occurrence of
every key value, in original row order (for each key value `p`, the rows of
the deduplicated batch with that key are the first such row of the input and
nothing else); in particular loading the batch [(k=1,v=A),(k=1,v=B)] into an
empty `cyber_incidents` store stores exactly the row with v=A. -/
theorem C2_intra_batch_first_occurrence_wins (rows : List Row) (p : Option String) :
    ((drop_duplicates rows).filter (fun r => r.pk == p))
        = (rows.filter (fun r => r.pk == p)).take 1 ∧
    (load_csv_to_table [] "cyber_incidents"
        (some [⟨some "1", "A"⟩, ⟨some "1", "B"⟩])).table
      = [⟨some "1", "A"⟩] := by
  constructor
  · rw [drop_duplicates, filter_drop_duplicates_aux p []]
    simp
  · decide

/-- C3 — The returned pair of `load_csv_to_table` tallies exactly the
cleaned batch: `skipped` counts only the cleaned rows whose key already
exists in the store, `inserted` counts the rest of the cleaned rows, the two
components partition the cleaned batch, and the rows dropped for a null key
or as intra-batch duplicates appear in neither component (the four counts
together account for every row of the file). -/
theorem C3_return_pair_tallies (table : List Row) (tname pkc : String)
    (df : List Row)
    (hpk : List.lookup tname PK_COL = some pkc) :
    (load_csv_to_table table tname (some df)).skipped
        = ((drop_duplicates (dropna df)).filter
            (fun r => key_in_existing (get_existing_keys table) r)).length ∧
    (load_csv_to_table table tname (some df)).inserted
        = ((drop_duplicates (dropna df)).filter
            (fun r => !(key_in_existing (get_existing_keys table) r))).length ∧
    (load_csv_to_table table tname (some df)).inserted
        + (load_csv_to_table table tname (some df)).skipped
        = (drop_duplicates (dropna df)).length ∧
    (load_csv_to_table table tname (some df)).inserted
        + (load_csv_to_table table tname (some df)).skipped
        + ((dropna df).length - (drop_duplicates (dropna df)).length)
        + (df.length - (dropna df).length)
        = df.length := by
  have hform : load_csv_to_table table tname (some df)
      = ⟨table ++ (drop_duplicates (dropna df)).filter
            (fun r => !(key_in_existing (get_existing_keys table) r)),
         ((drop_duplicates (dropna df)).filter
            (fun r => !(key_in_existing (get_existing_keys table) r))).length,
         ((drop_duplicates (dropna df)).filter
            (fun r => key_in_existing (get_existing_keys table) r)).length⟩ := by
    simp only [load_csv_to_table, hpk]
  have hpart : ((drop_duplicates (dropna df)).filter
        (fun r => !(key_in_existing (get_existing_keys table) r))).length
      + ((drop_duplicates (dropna df)).filter
            (fun r => key_in_existing (get_existing_keys table) r)).length
      = (drop_duplicates (dropna df)).length := by
    rw [← List.countP_eq_length_filter, ← List.countP_eq_length_filter,
      Nat.add_comm, List.length_eq_countP_add_countP
        (fun r => key_in_existing (get_existing_keys table) r)
        (drop_duplicates (dropna df))]
    congr 1
    apply List.countP_congr
    intro a _
    simp
  have hdedup_le : (drop_duplicates (dropna df)).length ≤ (dropna df).length :=
    length_drop_duplicates_aux_le [] (dropna df)
  have hdropna_le : (dropna df).length ≤ df.length :=
    List.length_filter_le _ df
  refine ⟨by rw [hform], by rw [hform], by rw [hform]; exact hpart, ?_⟩
  rw [hform]
  show ((drop_duplicates (dropna df)).filter _).length
      + ((drop_duplicates (dropna df)).filter _).length
      + ((dropna df).length - (drop_duplicates (dropna df)).length)
      + (df.length - (dropna df).length) = df.length
  rw [hpart, Nat.add_sub_cancel' hdedup_le, Nat.add_sub_cancel' hdropna_le]

/-- Witness for C3: store already holding key K, batch with one null-key
row, an intra-batch duplicate pair on key A, and one stale row on key K. -/
theorem C3_return_pair_tallies_witness :
    (List.lookup "it_tickets" PK_COL = some "ticket_id") ∧
    ((load_csv_to_table [⟨some "K", "old"⟩] "it_tickets"
        (some [⟨none, "n"⟩, ⟨some "A", "a1"⟩, ⟨some "A", "a2"⟩,
               ⟨some "K", "k"⟩])).skipped
      = ((drop_duplicates (dropna [⟨none, "n"⟩, ⟨some "A", "a1"⟩,
            ⟨some "A", "a2"⟩, ⟨some "K", "k"⟩])).filter
          (fun r => key_in_existing
            (get_existing_keys [⟨some "K", "old"⟩]) r)).length ∧
     (load_csv_to_table [⟨some "K", "old"⟩] "it_tickets"
        (some [⟨none, "n"⟩, ⟨some "A", "a1"⟩, ⟨some "A", "a2"⟩,
               ⟨some "K", "k"⟩])).inserted
      = ((drop_duplicates (dropna [⟨none, "n"⟩, ⟨some "A", "a1"⟩,
            ⟨some "A", "a2"⟩, ⟨some "K", "k"⟩])).filter
          (fun r => !(key_in_existing
            (get_existing_keys [⟨some "K", "old"⟩]) r))).length ∧
     (load_csv_to_table [⟨some "K", "old"⟩] "it_tickets"
        (some [⟨none, "n"⟩, ⟨some "A", "a1"⟩, ⟨some "A", "a2"⟩,
               ⟨some "K", "k"⟩])).inserted
      + (load_csv_to_table [⟨some "K", "old"⟩] "it_tickets"
          (some [⟨none, "n"⟩, ⟨some "A", "a1"⟩, ⟨some "A", "a2"⟩,
                 ⟨some "K", "k"⟩])).skipped
      = (drop_duplicates (dropna [⟨none, "n"⟩, ⟨some "A", "a1"⟩,
          ⟨some "A", "a2"⟩, ⟨some "K", "k"⟩])).length ∧
     (load_csv_to_table [⟨some "K", "old"⟩] "it_tickets"
        (some [⟨none, "n"⟩, ⟨some "A", "a1"⟩, ⟨some "A", "a2"⟩,
               ⟨some "K", "k"⟩])).inserted
      + (load_csv_to_table [⟨some "K", "old"⟩] "it_tickets"
          (some [⟨none, "n"⟩, ⟨some "A", "a1"⟩, ⟨some "A", "a2"⟩,
                 ⟨some "K", "k"⟩])).skipped
      + ((dropna [⟨none, "n"⟩, ⟨some "A", "a1"⟩, ⟨some "A", "a2"⟩,
            ⟨some "K", "k"⟩]).length
          - (drop_duplicates (dropna [⟨none, "n"⟩, ⟨some "A", "a1"⟩,
              ⟨some "A", "a2"⟩, ⟨some "K", "k"⟩])).length)
      + (([⟨none, "n"⟩, ⟨some "A", "a1"⟩, ⟨some "A", "a2"⟩,
            ⟨some "K", "k"⟩] : List Row).length
          - (dropna [⟨none, "n"⟩, ⟨some "A", "a1"⟩, ⟨some "A", "a2"⟩,
              ⟨some "K", "k"⟩]).length)
      = ([⟨none, "n"⟩, ⟨some "A", "a1"⟩, ⟨some "A", "a2"⟩,
            ⟨some "K", "k"⟩] : List Row).length) :=
  ⟨by decide,
   C3_return_pair_tallies [⟨some "K", "old"⟩] "it_tickets" "ticket_id"
     [⟨none, "n"⟩, ⟨some "A", "a1"⟩, ⟨some "A", "a2"⟩, ⟨some "K", "k"⟩]
     (by decide)⟩

/-- C4 — Cross-store de-duplication compares keys as exact normalized
strings, never numerically: with key "7" pre-seeded in the store, a batch
row keyed "7.0" is treated as distinct, so it is inserted and nothing is
skipped. -/
theorem C4_string_key_comparison :
    load_csv_to_table [⟨some "7", "seed"⟩] "cyber_incidents"
        (some [⟨some "7.0", "v"⟩])
      = ⟨[⟨some "7", "seed"⟩, ⟨some "7.0", "v"⟩], 1, 0⟩ := by
  decide

/-! ## CRUD layer (`DB/crud.py` against the `DB/schema.py` constraints) -/

/-- One stored row of `cyber_incidents` (the business columns; the surrogate
`id` column plays no role in the logic). -/
structure Incident where
  incident_id : String
  incident_type : String
  severity : String
  status : String
  reported_at : String
  resolved_at : String
  assigned_to : String
  description : String
deriving DecidableEq, Repr

/-- `f"No incident found with ID '{incident_id}'."` -/
def incident_not_found_msg (incident_id : String) : String :=
  "No incident found with ID '" ++ incident_id ++ "'."

/-- `f"Incident '{incident_id}' updated."` -/
def incident_updated_msg (incident_id : String) : String :=
  "Incident '" ++ incident_id ++ "' updated."

/-- `f"Incident '{incident_id}' deleted."` -/
def incident_deleted_msg (incident_id : String) : String :=
  "Incident '" ++ incident_id ++ "' deleted."

/-- `update_incident_status` from `crud.py`: SQL `UPDATE cyber_incidents SET
status = ? WHERE incident_id = ?` sets the status of every matching row;
`cursor.rowcount` is the number of matched rows, and the function reports
not-found exactly when it is zero. -/
def update_incident_status (tbl : List Incident) (incident_id new_status : String) :
    List Incident × Bool × String :=
  let updated := tbl.map (fun r =>
    if r.incident_id = incident_id then { r with status := new_status } else r)
  if tbl.countP (fun r => r.incident_id == incident_id) = 0 then
    (updated, false, incident_not_found_msg incident_id)
  else
    (updated, true, incident_updated_msg incident_id)

/-- `delete_incident` from `crud.py`: SQL `DELETE FROM cyber_incidents WHERE
incident_id = ?` removes every matching row; `cursor.rowcount` is the number
removed. -/
def delete_incident (tbl : List Incident) (incident_id : String) :
    List Incident × Bool × String :=
  let remaining := tbl.filter (fun r => !(r.incident_id == incident_id))
  if tbl.countP (fun r => r.incident_id == incident_id) = 0 then
    (remaining, false, incident_not_found_msg incident_id)
  else
    (remaining, true, incident_deleted_msg incident_id)

/-- The two halves of a filter partition a list's length. -/
theorem length_filter_partition {α : Type} (p : α → Bool) (l : List α) :
    (l.filter (fun a => !(p a))).length + (l.filter p).length = l.length := by
  rw [← List.countP_eq_length_filter, ← List.countP_eq_length_filter,
    Nat.add_comm, List.length_eq_countP_add_countP p l]
  congr 1
  apply List.countP_congr
  intro a _
  simp

/-- The `UPDATE` row map is the identity when no row matches the key. -/
theorem update_map_id (id new : String) :
    ∀ (tbl : List Incident), (∀ r ∈ tbl, r.incident_id ≠ id) →
      tbl.map (fun r => if r.incident_id = id
        then { r with status := new } else r) = tbl := by
  intro tbl h
  induction tbl with
  | nil => rfl
  | cons a t ih =>
    rw [List.map_cons, if_neg (h a (List.mem_cons_self a t)),
      ih (fun r hr => h r (List.mem_cons_of_mem a hr))]

/-- With unique keys, filtering the table on a present key yields exactly
the one row holding it. -/
theorem filter_key_singleton (id : String) (r : Incident) :
    ∀ (tbl : List Incident), (tbl.map Incident.incident_id).Nodup →
      r ∈ tbl → r.incident_id = id →
      tbl.filter (fun s => s.incident_id == id) = [r] := by
  intro tbl
  induction tbl with
  | nil => intro _ hr; cases hr
  | cons a t ih =>
    intro hnd hr hid
    rw [List.map_cons, List.nodup_cons] at hnd
    obtain ⟨hna, hndt⟩ := hnd
    rcases List.mem_cons.mp hr with h | h
    · subst h
      have hnomore : t.filter (fun s => s.incident_id == id) = [] := by
        apply List.filter_eq_nil_iff.mpr
        intro s hs hbeq
        have hsid : s.incident_id = id := by simpa using hbeq
        exact hna (List.mem_map.mpr ⟨s, hs, hsid.trans hid.symm⟩)
      rw [List.filter_cons_of_pos (by simp [hid]), hnomore]
    · have hane : ¬ (a.incident_id = id) := by
        intro ha
        exact hna (List.mem_map.mpr ⟨r, h, hid.trans ha.symm⟩)
      rw [List.filter_cons_of_neg (by simp [hane])]
      exact ih hndt h hid

/-- C6 — With unique keys: updating or deleting an absent key returns
`(false, not-found message)` and leaves the table untouched; updating or
deleting a present key returns `(true, success message)` and touches exactly
one row — exactly one row matches, every other row is unchanged (update
preserves them and the length, delete keeps them and shortens the table by
one), and the matched row is updated to the new status resp. removed. -/
theorem C6_update_delete_by_key (tbl : List Incident) (id new : String)
    (hnd : (tbl.map Incident.incident_id).Nodup) :
    ((∀ r ∈ tbl, r.incident_id ≠ id) →
       update_incident_status tbl id new
           = (tbl, false, incident_not_found_msg id) ∧
       delete_incident tbl id = (tbl, false, incident_not_found_msg id)) ∧
    (∀ r ∈ tbl, r.incident_id = id →
       (update_incident_status tbl id new).2 = (true, incident_updated_msg id) ∧
       tbl.countP (fun s => s.incident_id == id) = 1 ∧
       (update_incident_status tbl id new).1.filter
           (fun s => !(s.incident_id == id))
         = tbl.filter (fun s => !(s.incident_id == id)) ∧
       (update_incident_status tbl id new).1.filter (fun s => s.incident_id == id)
         = [{ r with status := new }] ∧
       (update_incident_status tbl id new).1.length = tbl.length ∧
       (delete_incident tbl id).2 = (true, incident_deleted_msg id) ∧
       (delete_incident tbl id).1 = tbl.filter (fun s => !(s.incident_id == id)) ∧
       (delete_incident tbl id).1.length + 1 = tbl.length) := by
  constructor
  · intro habs
    have hzero : tbl.countP (fun r => r.incident_id == id) = 0 :=
      List.countP_eq_zero.mpr (by intro a ha; simp [habs a ha])
    have hmapid := update_map_id id new tbl habs
    have hfull : tbl.filter (fun r => !(r.incident_id == id)) = tbl :=
      List.filter_eq_self.mpr (by intro a ha; simp [habs a ha])
    constructor
    · rw [update_incident_status]
      simp only [hzero, if_pos, hmapid]
    · rw [delete_incident]
      simp only [hzero, if_pos, hfull]
  · intro r hr hid
    have hsing := filter_key_singleton id r tbl hnd hr hid
    have hcount : tbl.countP (fun s => s.incident_id == id) = 1 := by
      rw [List.countP_eq_length_filter, hsing]
      rfl
    have hnz : ¬ tbl.countP (fun s => s.incident_id == id) = 0 := by
      rw [hcount]; exact Nat.one_ne_zero
    have hkey : ∀ s : Incident,
        ((if s.incident_id = id then { s with status := new } else s) :
          Incident).incident_id = s.incident_id := by
      intro s
      by_cases h : s.incident_id = id <;> simp [h]
    have hupd : (update_incident_status tbl id new).1
        = tbl.map (fun s => if s.incident_id = id
            then { s with status := new } else s) := by
      rw [update_incident_status]
      simp only [if_neg hnz]
    refine ⟨?_, hcount, ?_, ?_, ?_, ?_, ?_, ?_⟩
    · rw [update_incident_status]; simp only [if_neg hnz]
    · rw [hupd, List.filter_map]
      have hpcomp : ((fun s : Incident => !(s.incident_id == id)) ∘
          (fun s : Incident => if s.incident_id = id
            then { s with status := new } else s))
          = (fun s : Incident => !(s.incident_id == id)) := by
        funext s
        simp only [Function.comp_apply, hkey s]
      rw [hpcomp]
      apply update_map_id
      intro s hs
      have := List.of_mem_filter hs
      simpa using this
    · rw [hupd, List.filter_map]
      have hpcomp : ((fun s : Incident => s.incident_id == id) ∘
          (fun s : Incident => if s.incident_id = id
            then { s with status := new } else s))
          = (fun s : Incident => s.incident_id == id) := by
        funext s
        simp only [Function.comp_apply, hkey s]
      rw [hpcomp, hsing, List.map_cons, List.map_nil, if_pos hid]
    · rw [hupd, List.length_map]
    · rw [delete_incident]; simp only [if_neg hnz]
    · rw [delete_incident]; simp only [if_neg hnz]
    · show (delete_incident tbl id).1.length + 1 = tbl.length
      have hdel : (delete_incident tbl id).1
          = tbl.filter (fun s => !(s.incident_id == id)) := by
        rw [delete_incident]; simp only [if_neg hnz]
      rw [hdel]
      have hpart := length_filter_partition
        (fun s : Incident => s.incident_id == id) tbl
      rw [hsing] at hpart
      simpa using hpart

/-- Witness for C6: a two-row table with distinct keys, exercised at the
present key "INC-1" and the absent key "INC-9". -/
theorem C6_update_delete_by_key_witness :
    (([⟨"INC-1", "phish", "High", "Open", "r", "v", "a", "d"⟩,
       ⟨"INC-2", "ddos", "Low", "Open", "r", "v", "a", "d"⟩] :
        List Incident).map Incident.incident_id).Nodup ∧
    (update_incident_status
        [⟨"INC-1", "phish", "High", "Open", "r", "v", "a", "d"⟩,
         ⟨"INC-2", "ddos", "Low", "Open", "r", "v", "a", "d"⟩]
        "INC-9" "Closed"
      = ([⟨"INC-1", "phish", "High", "Open", "r", "v", "a", "d"⟩,
          ⟨"INC-2", "ddos", "Low", "Open", "r", "v", "a", "d"⟩],
         false, incident_not_found_msg "INC-9")) ∧
    ((update_incident_status
        [⟨"INC-1", "phish", "High", "Open", "r", "v", "a", "d"⟩,
         ⟨"INC-2", "ddos", "Low", "Open", "r", "v", "a", "d"⟩]
        "INC-1" "Closed").2 = (true, incident_updated_msg "INC-1")) ∧
    ((delete_incident
        [⟨"INC-1", "phish", "High", "Open", "r", "v", "a", "d"⟩,
         ⟨"INC-2", "ddos", "Low", "Open", "r", "v", "a", "d"⟩]
        "INC-1").1.length + 1 = 2) :=
  ⟨by decide,
   ((C6_update_delete_by_key
       [⟨"INC-1", "phish", "High", "Open", "r", "v", "a", "d"⟩,
        ⟨"INC-2", "ddos", "Low", "Open", "r", "v", "a", "d"⟩]
       "INC-9" "Closed" (by decide)).1 (by decide)).1,
   (((C6_update_delete_by_key
       [⟨"INC-1", "phish", "High", "Open", "r", "v", "a", "d"⟩,
        ⟨"INC-2", "ddos", "Low", "Open", "r", "v", "a", "d"⟩]
       "INC-1" "Closed" (by decide)).2
       ⟨"INC-1", "phish", "High", "Open", "r", "v", "a", "d"⟩
       (by decide) (by decide))).1,
   by
     have h := (((C6_update_delete_by_key
       [⟨"INC-1", "phish", "High", "Open", "r", "v", "a", "d"⟩,
        ⟨"INC-2", "ddos", "Low", "Open", "r", "v", "a", "d"⟩]
       "INC-1" "Closed" (by decide)).2
       ⟨"INC-1", "phish", "High", "Open", "r", "v", "a", "d"⟩
       (by decide) (by decide)))
     exact h.2.2.2.2.2.2.2⟩

/-- One stored row of `users`.  The schema declares `username TEXT UNIQUE
NOT NULL, password_hash TEXT NOT NULL, role TEXT NOT NULL`; fields are
`Option String` because the Python caller may pass `None`, which sqlite
rejects via the NOT NULL constraints. -/
structure UserRow where
  username : Option String
  password_hash : Option String
  role : Option String
deriving DecidableEq, Repr

/-- Python string interpolation of a value that may be `None`. -/
def py_show_opt : Option String → String
  | none => "None"
  | some s => s

/-- The condition under which sqlite raises `IntegrityError` on
`INSERT INTO users ...` (schema.py): a NULL in any of the three NOT NULL
columns, or a duplicate username (UNIQUE). -/
def users_integrity_violation (tbl : List UserRow)
    (username password_hash role : Option String) : Bool :=
  username.isNone || password_hash.isNone || role.isNone
    || tbl.any (fun row => row.username == username)

/-- `insert_user` from `crud.py`: the `try/except sqlite3.IntegrityError`
catches every constraint violation and reports all of them with the same
already-exists message. -/
def insert_user (tbl : List UserRow)
    (username password_hash role : Option String) :
    List UserRow × Bool × String :=
  if users_integrity_violation tbl username password_hash role then
    (tbl, false, "Username '" ++ py_show_opt username ++ "' already exists.")
  else
    (tbl ++ [⟨username, password_hash, role⟩], true,
     "User '" ++ py_show_opt username ++ "' created.")

/-- The condition under which sqlite raises `IntegrityError` on
`INSERT INTO cyber_incidents ...`: a NULL `incident_id` (NOT NULL) or a
duplicate one (UNIQUE); the remaining columns are nullable. -/
def incidents_integrity_violation (tbl : List Incident)
    (incident_id : Option String) : Bool :=
  incident_id.isNone || tbl.any (fun row => some row.incident_id == incident_id)

/-- `create_incident` from `crud.py`, with the same catch-all
`except sqlite3.IntegrityError` branch. -/
def create_incident (tbl : List Incident) (incident_id : Option String)
    (incident_type severity status reported_at resolved_at assigned_to
      description : String) : List Incident × Bool × String :=
  if incidents_integrity_violation tbl incident_id then
    (tbl, false,
     "Incident ID '" ++ py_show_opt incident_id ++ "' already exists.")
  else
    (tbl ++ [⟨py_show_opt incident_id, incident_type, severity, status,
       reported_at, resolved_at, assigned_to, description⟩], true,
     "Incident '" ++ py_show_opt incident_id ++ "' created.")

/-- C9 — Every integrity-constraint violation on a single-row create is
reported as `(False, "... already exists.")`: a NOT NULL violation on the
non-key column `password_hash` with a fresh username produces exactly the
same returned pair as a duplicate-username insert, so the caller cannot
tell the two apart; likewise `create_incident` reports a NULL key as
"already exists". -/
theorem C9_integrity_error_conflated (tbl : List UserRow) (u rolev : String)
    (tbl2 : List UserRow) (p2 r2 : String)
    (hfresh : tbl.any (fun row => row.username == some u) = false)
    (hdup : tbl2.any (fun row => row.username == some u) = true) :
    insert_user tbl (some u) none (some rolev)
      = (tbl, false, "Username '" ++ u ++ "' already exists.") ∧
    (∀ p : String, insert_user tbl (some u) (some p) (some rolev)
      = (tbl ++ [⟨some u, some p, some rolev⟩], true,
         "User '" ++ u ++ "' created.")) ∧
    (insert_user tbl2 (some u) (some p2) (some r2)).2
      = (false, "Username '" ++ u ++ "' already exists.") ∧
    (insert_user tbl (some u) none (some rolev)).2
      = (insert_user tbl2 (some u) (some p2) (some r2)).2 ∧
    (∀ (itbl : List Incident)
       (t sev st rep res asg desc : String),
       create_incident itbl none t sev st rep res asg desc
         = (itbl, false, "Incident ID 'None' already exists.")) := by
  have h1 : users_integrity_violation tbl (some u) none (some rolev) = true := by
    simp [users_integrity_violation]
  have h2 : users_integrity_violation tbl2 (some u) (some p2) (some r2) = true := by
    simp [users_integrity_violation, hdup]
  refine ⟨?_, ?_, ?_, ?_, ?_⟩
  · rw [insert_user, if_pos h1]; rfl
  · intro p
    have hok : users_integrity_violation tbl (some u) (some p) (some rolev)
        = false := by
      simp [users_integrity_violation]
      intro row hrow
      have := List.any_eq_false.mp hfresh row hrow
      simpa using this
    rw [insert_user, if_neg (by rw [hok]; exact Bool.false_ne_true)]
    rfl
  · rw [insert_user, if_pos h2]; rfl
  · rw [insert_user, if_pos h1, insert_user, if_pos h2]
  · intro itbl t sev st rep res asg desc
    rw [create_incident, if_pos (by simp [incidents_integrity_violation])]
    rfl

/-- Witness for C9: empty table for the fresh-key case, a one-user table for
the duplicate case. -/
theorem C9_integrity_error_conflated_witness :
    (([] : List UserRow).any (fun row => row.username == some "alice") = false) ∧
    (([⟨some "alice", some "h", some "admin"⟩] : List UserRow).any
        (fun row => row.username == some "alice") = true) ∧
    (insert_user [] (some "alice") none (some "admin")
       = ([], false, "Username '" ++ "alice" ++ "' already exists.") ∧
     (∀ p : String, insert_user [] (some "alice") (some p) (some "admin")
       = ([] ++ [⟨some "alice", some p, some "admin"⟩], true,
          "User '" ++ "alice" ++ "' created.")) ∧
     (insert_user [⟨some "alice", some "h", some "admin"⟩]
        (some "alice") (some "h2") (some "user")).2
       = (false, "Username '" ++ "alice" ++ "' already exists.") ∧
     (insert_user [] (some "alice") none (some "admin")).2
       = (insert_user [⟨some "alice", some "h", some "admin"⟩]
           (some "alice") (some "h2") (some "user")).2 ∧
     (∀ (itbl : List Incident) (t sev st rep res asg desc : String),
        create_incident itbl none t sev st rep res asg desc
          = (itbl, false, "Incident ID 'None' already exists."))) :=
  ⟨by decide, by decide,
   C9_integrity_error_conflated [] "alice" "admin"
     [⟨some "alice", some "h", some "admin"⟩] "h2" "user"
     (by decide) (by decide)⟩

/-! ## The no-PK fallback branch against the `users` table's constraints -/

/-- `df.to_sql("users", conn, if_exists="append")` refined by the sqlite
constraints of `schema.py`: rows are inserted one at a time in file order;
the first row violating a constraint (NULL in a NOT NULL column, duplicate
username) raises `sqlite3.IntegrityError`, modelled as `none` — the
transaction is rolled back and the exception propagates, since
`load_csv_to_table` has no handler on this path. -/
def to_sql_append_users : List UserRow → List UserRow → Option (List UserRow)
  | store, [] => some store
  | store, row :: rest =>
    if users_integrity_violation store row.username row.password_hash row.role
    then none
    else to_sql_append_users (store ++ [row]) rest

/-- The no-PK branch of `load_csv_to_table` instantiated at the `users`
table (absent from `PK_COL`), with the `to_sql` append refined by the
table's constraints: `none` models the `IntegrityError` escaping the call,
`some` the normal return of `(len(df), 0)`. -/
def load_csv_to_users (store : List UserRow) (csv : Option (List UserRow)) :
    Option (List UserRow × Nat × Nat) :=
  match csv with
  | none => some (store, 0, 0)
  | some df =>
    match to_sql_append_users store df with
    | none => none
    | some store2 => some (store2, df.length, 0)

/-- C5 (counterexample) — The fallback append is not unconditional for
every batch: `users` takes the no-PK path, and a 2-row batch whose first
row has a NULL username makes the program raise `IntegrityError` (`none`)
instead of returning `(inserted=2, skipped=0)`; likewise a 1-row batch
duplicating a stored username raises instead of returning `(1, 0)`. -/
theorem C5_constraint_violating_append_raises :
    (List.lookup "users" PK_COL = none) ∧
    load_csv_to_users [⟨some "u", some "h", some "admin"⟩]
        (some [⟨none, some "h", some "admin"⟩,
               ⟨some "v", some "h", some "admin"⟩]) = none ∧
    load_csv_to_users [⟨some "u", some "h", some "admin"⟩]
        (some [⟨some "u", some "h2", some "user"⟩]) = none := by
  decide

/-- Stepwise success of the constrained append: with every field present,
pairwise-distinct batch usernames and no username already stored, all rows
are appended in order. -/
theorem to_sql_append_users_ok :
    ∀ (df store : List UserRow),
      (∀ r ∈ df, r.username.isSome ∧ r.password_hash.isSome ∧ r.role.isSome) →
      (df.map UserRow.username).Nodup →
      (∀ r ∈ df, ∀ s ∈ store, ¬ s.username = r.username) →
      to_sql_append_users store df = some (store ++ df) := by
  intro df
  induction df with
  | nil =>
    intro store _ _ _
    simp [to_sql_append_users]
  | cons row rest ih =>
    intro store hnn hnd hfresh
    obtain ⟨hu, hp, hr⟩ := hnn row (List.mem_cons_self row rest)
    obtain ⟨u, hueq⟩ := Option.isSome_iff_exists.mp hu
    obtain ⟨p, hpeq⟩ := Option.isSome_iff_exists.mp hp
    obtain ⟨ro, hroeq⟩ := Option.isSome_iff_exists.mp hr
    have hany : store.any (fun s => s.username == some u) = false := by
      apply List.any_eq_false.mpr
      intro s hs
      have hne := hfresh row (List.mem_cons_self row rest) s hs
      rw [hueq] at hne
      simpa using hne
    have hviol : users_integrity_violation store row.username
        row.password_hash row.role = false := by
      simp [users_integrity_violation, hueq, hpeq, hroeq, hany]
    rw [List.map_cons, List.nodup_cons] at hnd
    obtain ⟨hnotin, hndrest⟩ := hnd
    have hfresh2 : ∀ r ∈ rest, ∀ s ∈ store ++ [row], ¬ s.username = r.username := by
      intro r hrr s hss
      rcases List.mem_append.mp hss with h | h
      · exact hfresh r (List.mem_cons_of_mem row hrr) s h
      · have hsrow : s = row := by simpa using h
        subst hsrow
        intro heq
        exact hnotin (List.mem_map.mpr ⟨r, hrr, heq.symm⟩)
    have hrec := ih (store ++ [row])
      (fun r hrr => hnn r (List.mem_cons_of_mem row hrr)) hndrest hfresh2
    simp only [to_sql_append_users, hviol, Bool.false_eq_true, if_false, hrec]
    rw [← List.append_cons]

/-- C5 (amended) — The `users` table has no configured natural-key column,
so `load_csv_to_table` takes the unconditional-append path: no null-key
filtering, no intra-batch de-duplication and no cross-store de-duplication
are applied, and when the batch violates none of the table's sqlite
constraints (all three columns present, batch-internally distinct usernames,
none already stored) all R file rows are appended in order and the returned
pair is `(R, 0)`; a constraint-violating batch instead raises
`IntegrityError` out of the call (see the counterexample). -/
theorem C5_no_pk_append_when_constraints_hold (store df : List UserRow)
    (hnn : ∀ r ∈ df, r.username.isSome ∧ r.password_hash.isSome ∧ r.role.isSome)
    (hnd : (df.map UserRow.username).Nodup)
    (hfresh : ∀ r ∈ df, ∀ s ∈ store, ¬ s.username = r.username) :
    List.lookup "users" PK_COL = none ∧
    load_csv_to_users store (some df) = some (store ++ df, df.length, 0) := by
  refine ⟨by decide, ?_⟩
  have h := to_sql_append_users_ok df store hnn hnd hfresh
  simp only [load_csv_to_users, h]

/-- Witness for the amended C5: a store with one user and a clean two-row
batch; all 2 rows are appended and the pair is `(2, 0)`. -/
theorem C5_no_pk_append_when_constraints_hold_witness :
    (∀ r ∈ ([⟨some "a", some "h", some "admin"⟩,
             ⟨some "b", some "h", some "user"⟩] : List UserRow),
       r.username.isSome ∧ r.password_hash.isSome ∧ r.role.isSome) ∧
    (([⟨some "a", some "h", some "admin"⟩,
       ⟨some "b", some "h", some "user"⟩] : List UserRow).map
        UserRow.username).Nodup ∧
    (∀ r ∈ ([⟨some "a", some "h", some "admin"⟩,
             ⟨some "b", some "h", some "user"⟩] : List UserRow),
       ∀ s ∈ ([⟨some "u", some "h", some "admin"⟩] : List UserRow),
         ¬ s.username = r.username) ∧
    (List.lookup "users" PK_COL = none ∧
     load_csv_to_users [⟨some "u", some "h", some "admin"⟩]
        (some [⟨some "a", some "h", some "admin"⟩,
               ⟨some "b", some "h", some "user"⟩])
       = some ([⟨some "u", some "h", some "admin"⟩]
           ++ [⟨some "a", some "h", some "admin"⟩,
               ⟨some "b", some "h", some "user"⟩], 2, 0)) :=
  ⟨by decide, by decide, by decide,
   C5_no_pk_append_when_constraints_hold
     [⟨some "u", some "h", some "admin"⟩]
     [⟨some "a", some "h", some "admin"⟩, ⟨some "b", some "h", some "user"⟩]
     (by decide) (by decide) (by decide)⟩

/-! ## Assistant facade (`ai_helper.py`) -/

/-- Python `needle in hay` at position 0: the needle is a starting segment
of the hay. -/
def starts_chars : List Char → List Char → Bool
  | [], _ => true
  | _ :: _, [] => false
  | a :: as, b :: bs => a == b && starts_chars as bs

/-- Python `needle in hay` over character lists: the needle occurs at some
position of the hay. -/
def has_chars (needle : List Char) : List Char → Bool
  | [] => starts_chars needle []
  | h :: t => starts_chars needle (h :: t) || has_chars needle t

/-- Python's substring test `needle in hay` on strings. -/
def py_in (needle hay : String) : Bool :=
  has_chars needle.data hay.data

/-- Python `str.lower()` (the inputs involved are ASCII). -/
def py_lower (s : String) : String :=
  ⟨s.data.map Char.toLower⟩

/-- `c` is one of the whitespace characters `str.strip()` removes. -/
def py_space (c : Char) : Bool :=
  c == ' ' || c == '\t' || c == '\n' || c == '\r'

/-- Python `str.strip()`: remove leading and trailing whitespace. -/
def py_strip (s : String) : String :=
  ⟨((s.data.dropWhile py_space).reverse.dropWhile py_space).reverse⟩

/-- Python `str.startswith(px)`. -/
def py_startswith (s px : String) : Bool :=
  starts_chars px.data s.data

/-- The fixed opening block of `_offline_response`. -/
def preamble_block : String :=
  "Offline assistant mode (no usable AI API call succeeded).\n"
    ++ "Below is a rule-based analysis based on your incident data."

/-- The context echo block: `f"\nIncident summary:\n{context_text}"`. -/
def context_block (context_text : String) : String :=
  "\nIncident summary:\n" ++ context_text

/-- The prioritisation advice block. -/
def prioritisation_block : String :=
  "\nPrioritisation advice:\n"
    ++ "- Resolve High/Critical incidents that are still Open first.\n"
    ++ "- Next, clear Medium incidents that have been open for a long time.\n"
    ++ "- Low severity incidents can be grouped and handled in batches."

/-- The phishing guidance block. -/
def phishing_block : String :=
  "\nPhishing guidance:\n"
    ++ "- Check if a large share of incidents are phishing emails.\n"
    ++ "- If yes, recommend short staff training and stronger email filtering rules.\n"
    ++ "- Monitor how phishing incidents change after these actions."

/-- The backlog / bottleneck analysis block. -/
def backlog_block : String :=
  "\nBacklog / bottleneck analysis:\n"
    ++ "- A high count of Open incidents suggests insufficient capacity.\n"
    ++ "- Many incidents stuck In Progress can indicate process bottlenecks.\n"
    ++ "- Compare incident counts per assignee to detect imbalances."

/-- The generic-guidance block, appended when `len(parts) == 1` after the
keyword checks. -/
def general_block : String :=
  "\nGeneral guidance:\n"
    ++ "- Use the filters and charts above to inspect which incident types, "
    ++ "severities, and assignees dominate, then adjust playbooks accordingly."

/-- The fixed closing disclaimer. -/
def disclaimer_block : String :=
  "\nIn a full deployment, this panel sends the same question and context to "
    ++ "the OpenRouter model via the OpenRouter API."

/-- The `parts` list `_offline_response` builds: preamble, optional context
echo, keyword-selected advice blocks, the generic block when `parts` still
has exactly one element, and the disclaimer.  The echo is guarded by
Python's truthiness test `if context_text:`, which is false both for `None`
and for the empty string. -/
def offline_parts (user_message : String) (context_text : Option String) :
    List String :=
  let parts1 := [preamble_block]
  let parts2 := match context_text with
    | some ctx => if ctx = "" then parts1 else parts1 ++ [context_block ctx]
    | none => parts1
  let msg := py_lower user_message
  let parts3 := if py_in "priorit" msg || py_in "first" msg
    then parts2 ++ [prioritisation_block] else parts2
  let parts4 := if py_in "phishing" msg
    then parts3 ++ [phishing_block] else parts3
  let parts5 := if py_in "backlog" msg || py_in "bottleneck" msg
    then parts4 ++ [backlog_block] else parts4
  let parts6 := if parts5.length = 1
    then parts5 ++ [general_block] else parts5
  parts6 ++ [disclaimer_block]

/-- `_offline_response`: `"\n".join(parts)`. -/
def offline_response (user_message : String) (context_text : Option String) :
    String :=
  String.intercalate "\n" (offline_parts user_message context_text)

/-- One element of the response's `choices` array, reduced to
`choices[i].get("message", {}).get("content", "")`: the empty string models
a missing as well as an empty content field. -/
structure ApiChoice where
  content : String
deriving DecidableEq, Repr

/-- The parsed JSON body of a 200 response: its `choices` array and the raw
printed form used in the no-choices notice. -/
structure ApiResponse where
  choices : List ApiChoice
  raw : String
deriving DecidableEq, Repr

/-- Outcome of the one HTTP attempt of `_openrouter_response`: no API key
configured; a raised transport exception (network error, timeout, ...); a
non-200 status; or a 200 response with a parsed JSON body. -/
inductive ApiOutcome where
  | noKey
  | transportError (e : String)
  | httpError (status : Nat) (body : String)
  | ok (resp : ApiResponse)
deriving DecidableEq, Repr

/-- `_openrouter_response` as a function of the HTTP outcome. -/
def openrouter_response : ApiOutcome → Option String
  | .noKey => none
  | .transportError e =>
      some ("Error calling OpenRouter API: " ++ e)
  | .httpError status body =>
      some ("Error calling OpenRouter API: HTTP " ++ toString status
        ++ " | " ++ body)
  | .ok resp =>
      match resp.choices with
      | [] => some ("AI API returned no choices. Raw: " ++ resp.raw)
      | c :: _ =>
          if c.content = "" then some "AI API returned an empty message."
          else some (py_strip c.content)

/-- `ask_cyber_assistant`: offline answer when no key is configured;
otherwise the remote answer, with the offline analysis appended exactly
when the remote answer starts with the literal prefix
"Error calling OpenRouter API". -/
def ask_cyber_assistant (outcome : ApiOutcome) (user_message : String)
    (context_text : Option String) : String :=
  match openrouter_response outcome with
  | none => offline_response user_message context_text
  | some online_answer =>
      if py_startswith online_answer "Error calling OpenRouter API"
      then online_answer ++ "\n\n" ++ offline_response user_message context_text
      else online_answer

/-- C7 (counterexample) — The claim fails when a context is supplied: for
the question "hello", which contains none of the checked keywords, the
offline answer built with a context echo contains NO generic-guidance block
(the code appends it only when `len(parts) == 1`, and the context echo has
already made the list two elements long). -/
theorem C7_context_suppresses_general_block :
    (py_in "priorit" (py_lower "hello") = false ∧
     py_in "first" (py_lower "hello") = false ∧
     py_in "phishing" (py_lower "hello") = false ∧
     py_in "backlog" (py_lower "hello") = false ∧
     py_in "bottleneck" (py_lower "hello") = false) ∧
    offline_parts "hello" (some "ctx")
      = [preamble_block, context_block "ctx", disclaimer_block] ∧
    (offline_parts "hello" (some "ctx")).count general_block = 0 := by
  decide

/-- C7 (amended) — For a question containing none of the checked keywords,
the generic-guidance block follows Python's truthiness of the context: with
a falsy context (absent, or a supplied empty string) the offline answer is
exactly the preamble, one generic-guidance block and the disclaimer; with a
truthy (non-empty) supplied context it is exactly the preamble, the context
echo and the disclaimer, with no generic-guidance block. -/
theorem C7_general_block_iff_falsy_context (msg : String)
    (h1 : py_in "priorit" (py_lower msg) = false)
    (h2 : py_in "first" (py_lower msg) = false)
    (h3 : py_in "phishing" (py_lower msg) = false)
    (h4 : py_in "backlog" (py_lower msg) = false)
    (h5 : py_in "bottleneck" (py_lower msg) = false) :
    offline_parts msg none = [preamble_block, general_block, disclaimer_block] ∧
    offline_parts msg (some "")
      = [preamble_block, general_block, disclaimer_block] ∧
    (∀ ctx, ctx ≠ "" → offline_parts msg (some ctx)
      = [preamble_block, context_block ctx, disclaimer_block]) := by
  refine ⟨?_, ?_, ?_⟩
  · simp [offline_parts, h1, h2, h3, h4, h5]
  · simp [offline_parts, h1, h2, h3, h4, h5]
  · intro ctx hctx
    simp [offline_parts, h1, h2, h3, h4, h5, hctx]

/-- Witness for the amended C7 at the keyword-free question "hello". -/
theorem C7_general_block_iff_falsy_context_witness :
    (py_in "priorit" (py_lower "hello") = false ∧
     py_in "first" (py_lower "hello") = false ∧
     py_in "phishing" (py_lower "hello") = false ∧
     py_in "backlog" (py_lower "hello") = false ∧
     py_in "bottleneck" (py_lower "hello") = false) ∧
    (offline_parts "hello" none
        = [preamble_block, general_block, disclaimer_block] ∧
     offline_parts "hello" (some "")
        = [preamble_block, general_block, disclaimer_block] ∧
     (∀ ctx, ctx ≠ "" → offline_parts "hello" (some ctx)
        = [preamble_block, context_block ctx, disclaimer_block])) :=
  ⟨⟨by decide, by decide, by decide, by decide, by decide⟩,
   C7_general_block_iff_falsy_context "hello" (by decide) (by decide)
     (by decide) (by decide) (by decide)⟩

/-- C8 (counterexample) — A malformed 200 response body is NOT recovered by
appending the offline answer: with an empty `choices` array,
`ask_cyber_assistant` returns only the no-choices notice, which does not
contain the rule-based offline answer (the notice does not start with
"Error calling OpenRouter API", so the fallback concatenation is skipped). -/
theorem C8_no_choices_not_recovered :
    ask_cyber_assistant (.ok ⟨[], "raw-json"⟩) "q" none
      = "AI API returned no choices. Raw: raw-json" ∧
    py_in (offline_response "q" none)
      (ask_cyber_assistant (.ok ⟨[], "raw-json"⟩) "q" none) = false := by
  decide

/-- The needle is a starting segment of itself followed by anything. -/
theorem starts_chars_self_append :
    ∀ (l m : List Char), starts_chars l (l ++ m) = true := by
  intro l m
  induction l with
  | nil => rfl
  | cons a t ih => simp [starts_chars, ih]

/-- C8 (amended) — For every transport failure (network error, timeout —
a raised exception) and every non-success HTTP status,
`ask_cyber_assistant` returns the error text with the rule-based offline
answer appended after it, so in those cases the user receives a usable
response with the error preserved inline; malformed 200 bodies (no choices,
empty content) instead yield only a notice string (see the
counterexample). -/
theorem C8_error_paths_append_offline (e body q : String) (status : Nat)
    (ctx : Option String) :
    ask_cyber_assistant (.transportError e) q ctx
      = ("Error calling OpenRouter API: " ++ e) ++ "\n\n"
          ++ offline_response q ctx ∧
    ask_cyber_assistant (.httpError status body) q ctx
      = ("Error calling OpenRouter API: HTTP " ++ toString status
          ++ " | " ++ body) ++ "\n\n" ++ offline_response q ctx := by
  have hlit1 : ("Error calling OpenRouter API: " : String)
      = "Error calling OpenRouter API" ++ ": " := rfl
  have hlit2 : ("Error calling OpenRouter API: HTTP " : String)
      = "Error calling OpenRouter API" ++ ": HTTP " := rfl
  have hsplit1 : ("Error calling OpenRouter API: " ++ e)
      = "Error calling OpenRouter API" ++ (": " ++ e) := by
    rw [← String.append_assoc, ← hlit1]
  have hsplit2 : ("Error calling OpenRouter API: HTTP " ++ toString status
        ++ " | " ++ body)
      = "Error calling OpenRouter API"
        ++ (": HTTP " ++ toString status ++ " | " ++ body) := by
    rw [← String.append_assoc, ← String.append_assoc, ← String.append_assoc,
      ← hlit2]
  constructor
  · rw [ask_cyber_assistant]
    show (if py_startswith ("Error calling OpenRouter API: " ++ e)
        "Error calling OpenRouter API" then _ else _) = _
    rw [if_pos]
    rw [py_startswith, hsplit1, String.data_append]
    exact starts_chars_self_append _ _
  · rw [ask_cyber_assistant]
    show (if py_startswith ("Error calling OpenRouter API: HTTP "
        ++ toString status ++ " | " ++ body)
        "Error calling OpenRouter API" then _ else _) = _
    rw [if_pos]
    rw [py_startswith, hsplit2, String.data_append]
    exact starts_chars_self_append _ _

set_option maxRecDepth 8192 in
/-- C10 — The append-offline decision is a literal prefix test on the
answer string, so a successful 200 response (non-empty choices, non-empty
content) whose model-produced content happens to begin with
"Error calling OpenRouter API" also gets the offline analysis appended to
what is not an error answer. -/
theorem C10_spoofable_error_prefix :
    openrouter_response
        (.ok ⟨[⟨"Error calling OpenRouter API: spoofed model output"⟩], "raw"⟩)
      = some "Error calling OpenRouter API: spoofed model output" ∧
    "Error calling OpenRouter API: spoofed model output" ≠ "" ∧
    ask_cyber_assistant
        (.ok ⟨[⟨"Error calling OpenRouter API: spoofed model output"⟩], "raw"⟩)
        "q" none
      = "Error calling OpenRouter API: spoofed model output" ++ "\n\n"
          ++ offline_response "q" none := by
  refine ⟨by decide, by decide, ?_⟩
  decide

end Dashboard
